import Mathlib

/-!
Verification development for the RM auto-attack turret controller
(`src/C++/src/can/can_protocol.cpp`, `src/C++/src/serial/serial_comm.cpp`,
`src/C++/src/main.cpp`).  C++ unsigned integers are modelled as `Nat` with
explicit masks/mod where the source truncates; C++ `int` is modelled as `Int`;
byte vectors are `List Nat` whose elements are below 256 in every real run
(the `uint8_t` element type).  Durations measured by `std::chrono` are
modelled in integer milliseconds, which is exact: the source divides a
millisecond count by `1000.0` and compares against `0.0`, `0.2`, `0.4` and
`1.0`, and for millisecond counts in range those double comparisons agree
with the integer comparisons `= 0`, `≥ 200`, `≥ 400`, `> 1000`.
-/

namespace RmAutoAttack

namespace CANProtocol

/-- Low byte of `CANProtocol::uint16ToBytes` (can_protocol.cpp:300-303):
`low = value & 0xFF`. -/
def uint16ToBytesLow (value : Nat) : Nat := value &&& 0xFF

/-- High byte of `CANProtocol::uint16ToBytes` (can_protocol.cpp:300-303):
`high = (value >> 8) & 0xFF`. -/
def uint16ToBytesHigh (value : Nat) : Nat := (value >>> 8) &&& 0xFF

/-- Model of `CANProtocol::bytesToUint16` (can_protocol.cpp:296-298):
`low | (high << 8)` on `uint8_t` arguments (hence the `% 256` at the
call boundary, reflecting the parameter type). -/
def bytesToUint16 (low high : Nat) : Nat := (low % 256) ||| ((high % 256) <<< 8)

/-- Model of `CANProtocol::buildUSBCANFrame` (can_protocol.cpp:10-89).
The byte pushes are reproduced in order; multi-byte fields are emitted
low byte first via shifts and masks exactly as in the source. -/
def buildUSBCANFrame (canId picAngle yawAngle shootStatus idleAngle : Nat) :
    List Nat :=
  [0x55, 0xAA,
   0x1E,
   0x01,
   0x01, 0x00, 0x00, 0x00,
   0x0A, 0x00, 0x00, 0x00,
   0x00,
   (canId >>> 0) &&& 0xFF, (canId >>> 8) &&& 0xFF,
   (canId >>> 16) &&& 0xFF, (canId >>> 24) &&& 0xFF,
   0x00,
   0x08,
   0x00,
   0x00,
   uint16ToBytesLow picAngle, uint16ToBytesHigh picAngle,
   uint16ToBytesLow yawAngle, uint16ToBytesHigh yawAngle,
   uint16ToBytesLow shootStatus, uint16ToBytesHigh shootStatus,
   uint16ToBytesLow idleAngle, uint16ToBytesHigh idleAngle,
   0x88]

/-- Output parameters of `CANProtocol::parseUSBCANFrame`, modelled explicitly
so that the function's (non-)effect on each reference argument is visible. -/
structure ParseUSBCANOuts where
  canId : Nat
  data1 : Nat
  data2 : Nat
  data3 : Nat
  data4 : Nat
deriving Repr, DecidableEq

/-- Model of `CANProtocol::parseUSBCANFrame` (can_protocol.cpp:91-123).
Returns the C++ `bool` together with the final values of the five output
reference parameters; the source never assigns `data1..data4` (the parsing
of the payload is left unimplemented there), and assigns `canId` only after
all framing checks pass. -/
def parseUSBCANFrame (frame : List Nat) (o : ParseUSBCANOuts) :
    Bool × ParseUSBCANOuts :=
  if frame.length < 30 then (false, o)
  else if frame.getD 0 0 ≠ 0x55 ∨ frame.getD 1 0 ≠ 0xAA then (false, o)
  else if frame.getD 29 0 ≠ 0x88 then (false, o)
  else
    let c := frame.getD 13 0 ||| (frame.getD 14 0 <<< 8) |||
             (frame.getD 15 0 <<< 16) ||| (frame.getD 16 0 <<< 24)
    (true, { o with canId := c })

/-- Model of `CANProtocol::buildUSBCANRateFrame` (can_protocol.cpp:125-140);
`rateIndex` is a `uint8_t`, hence the mask at the call boundary. -/
def buildUSBCANRateFrame (rateIndex : Nat) : List Nat :=
  [0x55, 0x05, rateIndex &&& 0xFF, 0xAA, 0x55]

/-- Model of `CANProtocol::filterCANID` (can_protocol.cpp:142-153):
reads the 16-bit little-endian CAN id at offsets 3-4 (`data[3] | data[4] << 8`,
assigned to a `uint16_t`, hence the `% 65536`) and compares with
`targetId & 0xFFFF`. -/
def filterCANID (data : List Nat) (targetId : Nat) : Bool :=
  if data.length < 15 then false
  else ((data.getD 3 0 ||| (data.getD 4 0 <<< 8)) % 65536) == (targetId &&& 0xFFFF)

/-- Output parameters of `CANProtocol::parseCAN07FF`. -/
structure Can07FFOuts where
  pic : Nat
  yaw : Nat
  shoot : Nat
  idle : Nat
deriving Repr, DecidableEq

/-- Model of `CANProtocol::parseCAN07FF` (can_protocol.cpp:155-185).
On any length or CAN-id mismatch the function returns `false` without
touching the four output parameters; on success it reassembles each value
as `low | (high << 8)` from the offset pairs (8,7), (10,9), (12,11), (14,13). -/
def parseCAN07FF (data : List Nat) (o : Can07FFOuts) : Bool × Can07FFOuts :=
  if data.length < 15 then (false, o)
  else if filterCANID data 0x07FF then
    (true,
     { pic := bytesToUint16 (data.getD 8 0) (data.getD 7 0)
       yaw := bytesToUint16 (data.getD 10 0) (data.getD 9 0)
       shoot := bytesToUint16 (data.getD 12 0) (data.getD 11 0)
       idle := bytesToUint16 (data.getD 14 0) (data.getD 13 0) })
  else (false, o)

/-- Little-endian recombination of the two bytes emitted for a 16-bit field. -/
theorem uint16ToBytes_le (v : Nat) :
    uint16ToBytesLow v + 256 * uint16ToBytesHigh v = v % 65536 := by
  unfold uint16ToBytesLow uint16ToBytesHigh
  rw [Nat.and_pow_two_sub_one_eq_mod v 8, Nat.and_pow_two_sub_one_eq_mod (v >>> 8) 8,
      Nat.shiftRight_eq_div_pow]
  omega

/-- C6: for every combination of canId, pitch, yaw, shoot and idle inputs,
`buildUSBCANFrame` returns exactly 30 bytes with header `0x55 0xAA`, length
byte `0x1E`, command byte `0x01`, the canId little-endian at offsets 13-16,
the four 16-bit fields little-endian at offsets 21-28, and trailer `0x88`. -/
theorem buildUSBCANFrame_layout (c p y sh i : Nat) :
    (buildUSBCANFrame c p y sh i).length = 30 ∧
    (buildUSBCANFrame c p y sh i).getD 0 0 = 0x55 ∧
    (buildUSBCANFrame c p y sh i).getD 1 0 = 0xAA ∧
    (buildUSBCANFrame c p y sh i).getD 2 0 = 0x1E ∧
    (buildUSBCANFrame c p y sh i).getD 3 0 = 0x01 ∧
    (buildUSBCANFrame c p y sh i).getD 13 0 + 256 * (buildUSBCANFrame c p y sh i).getD 14 0 +
      65536 * (buildUSBCANFrame c p y sh i).getD 15 0 +
      16777216 * (buildUSBCANFrame c p y sh i).getD 16 0 = c % 4294967296 ∧
    (buildUSBCANFrame c p y sh i).getD 21 0 + 256 * (buildUSBCANFrame c p y sh i).getD 22 0
      = p % 65536 ∧
    (buildUSBCANFrame c p y sh i).getD 23 0 + 256 * (buildUSBCANFrame c p y sh i).getD 24 0
      = y % 65536 ∧
    (buildUSBCANFrame c p y sh i).getD 25 0 + 256 * (buildUSBCANFrame c p y sh i).getD 26 0
      = sh % 65536 ∧
    (buildUSBCANFrame c p y sh i).getD 27 0 + 256 * (buildUSBCANFrame c p y sh i).getD 28 0
      = i % 65536 ∧
    (buildUSBCANFrame c p y sh i).getD 29 0 = 0x88 := by
  refine ⟨rfl, rfl, rfl, rfl, rfl, ?_, ?_, ?_, ?_, ?_, rfl⟩
  · show (c >>> 0 &&& 0xFF) + 256 * (c >>> 8 &&& 0xFF) + 65536 * (c >>> 16 &&& 0xFF) +
      16777216 * (c >>> 24 &&& 0xFF) = c % 4294967296
    rw [Nat.and_pow_two_sub_one_eq_mod (c >>> 0) 8, Nat.and_pow_two_sub_one_eq_mod (c >>> 8) 8,
        Nat.and_pow_two_sub_one_eq_mod (c >>> 16) 8, Nat.and_pow_two_sub_one_eq_mod (c >>> 24) 8,
        Nat.shiftRight_eq_div_pow, Nat.shiftRight_eq_div_pow, Nat.shiftRight_eq_div_pow,
        Nat.shiftRight_eq_div_pow]
    omega
  · exact uint16ToBytes_le p
  · exact uint16ToBytes_le y
  · exact uint16ToBytes_le sh
  · exact uint16ToBytes_le i

/-- C3 counterexample: encoding pitch=11000, yaw=20000, shoot=0, idle=0 with
CAN ID 0x601 does NOT place `0x2B, 0x2B` at offsets 21-22: since
11000 = 0x2AF8, the low/high pitch bytes there are `0xF8, 0x2A`. -/
theorem frame11000_pitch_bytes_counterexample :
    (buildUSBCANFrame 0x601 11000 20000 0 0).getD 21 0 = 0xF8 ∧
    (buildUSBCANFrame 0x601 11000 20000 0 0).getD 21 0 ≠ 0x2B ∧
    (buildUSBCANFrame 0x601 11000 20000 0 0).getD 22 0 = 0x2A := by
  decide

/-- C3 amended: encoding pitch=11000, yaw=20000, shoot=0, idle=0 with CAN ID
0x601 places 0x601 little-endian (`0x01 0x06 0x00 0x00`) at offsets 13-16,
the bytes `0xF8, 0x2A` at offsets 21-22 (pitch 11000 = 0x2AF8, low then high)
and the bytes `0x20, 0x4E` at offsets 23-24 (yaw 20000 = 0x4E20, low then
high). -/
theorem frame11000_layout :
    (buildUSBCANFrame 0x601 11000 20000 0 0).getD 13 0 = 0x01 ∧
    (buildUSBCANFrame 0x601 11000 20000 0 0).getD 14 0 = 0x06 ∧
    (buildUSBCANFrame 0x601 11000 20000 0 0).getD 15 0 = 0x00 ∧
    (buildUSBCANFrame 0x601 11000 20000 0 0).getD 16 0 = 0x00 ∧
    (buildUSBCANFrame 0x601 11000 20000 0 0).getD 21 0 = 0xF8 ∧
    (buildUSBCANFrame 0x601 11000 20000 0 0).getD 22 0 = 0x2A ∧
    (buildUSBCANFrame 0x601 11000 20000 0 0).getD 23 0 = 0x20 ∧
    (buildUSBCANFrame 0x601 11000 20000 0 0).getD 24 0 = 0x4E := by
  decide

/-- Bytes of a `uint8_t` vector model are below 256, also through `getD`. -/
theorem getD_byte_lt {l : List Nat} (h : ∀ b ∈ l, b < 256) (k : Nat) :
    l.getD k 0 < 256 := by
  rcases Nat.lt_or_ge k l.length with hk | hk
  · rw [List.getD_eq_getElem l 0 hk]
    exact h _ (List.getElem_mem hk)
  · rw [List.getD_eq_default l 0 hk]
    norm_num

/-- A 16-bit value assembled from two bytes stays below 2^16. -/
theorem lor_byte_lt {a b : Nat} (ha : a < 256) (hb : b < 256) :
    a ||| (b <<< 8) < 65536 := by
  rw [Nat.lor_comm]
  have := Nat.append_lt (n := 8) (m := 8) (x := a) (y := b)
    (by norm_num at ha ⊢; exact ha) (by norm_num at hb ⊢; exact hb)
  norm_num at this
  exact this

/-- Characterization of `filterCANID` on byte vectors: true exactly when the
input is at least 15 bytes long and the little-endian 16-bit value at offsets
3-4 equals the target id masked to 16 bits. -/
theorem filterCANID_eq_true_iff {data : List Nat} (h : ∀ b ∈ data, b < 256)
    (targetId : Nat) :
    filterCANID data targetId = true ↔
      15 ≤ data.length ∧
        data.getD 3 0 ||| (data.getD 4 0 <<< 8) = targetId &&& 0xFFFF := by
  unfold filterCANID
  split_ifs with hlen
  · simp only [Bool.false_eq_true, false_iff, not_and]
    intro hge
    omega
  · rw [Nat.mod_eq_of_lt (lor_byte_lt (getD_byte_lt h 3) (getD_byte_lt h 4))]
    simp only [beq_iff_eq]
    constructor
    · exact fun he => ⟨Nat.le_of_not_lt hlen, he⟩
    · exact fun hp => hp.2

/-- C5: on byte vectors, `parseCAN07FF` succeeds exactly when the input has
length at least 15 and the little-endian 16-bit value at offsets 3-4 equals
0x07FF; on success it returns pic = data[8] | (data[7] << 8),
yaw = data[10] | (data[9] << 8), shoot = data[12] | (data[11] << 8),
idle = data[14] | (data[13] << 8); on failure it leaves all four outputs
untouched (and, being total, never throws). -/
theorem parseCAN07FF_spec (data : List Nat) (o : Can07FFOuts)
    (h : ∀ b ∈ data, b < 256) :
    ((parseCAN07FF data o).1 = true ↔
       15 ≤ data.length ∧ data.getD 3 0 ||| (data.getD 4 0 <<< 8) = 0x07FF) ∧
    ((parseCAN07FF data o).1 = true →
       (parseCAN07FF data o).2.pic = data.getD 8 0 ||| (data.getD 7 0 <<< 8) ∧
       (parseCAN07FF data o).2.yaw = data.getD 10 0 ||| (data.getD 9 0 <<< 8) ∧
       (parseCAN07FF data o).2.shoot = data.getD 12 0 ||| (data.getD 11 0 <<< 8) ∧
       (parseCAN07FF data o).2.idle = data.getD 14 0 ||| (data.getD 13 0 <<< 8)) ∧
    ((parseCAN07FF data o).1 = false → (parseCAN07FF data o).2 = o) := by
  have hmask : (0x07FF : Nat) &&& 0xFFFF = 0x07FF := by decide
  have hfil := filterCANID_eq_true_iff h 0x07FF
  rw [hmask] at hfil
  have hub : ∀ a b : Nat,
      bytesToUint16 (data.getD a 0) (data.getD b 0) =
        data.getD a 0 ||| (data.getD b 0 <<< 8) := by
    intro a b
    unfold bytesToUint16
    rw [Nat.mod_eq_of_lt (getD_byte_lt h a), Nat.mod_eq_of_lt (getD_byte_lt h b)]
  unfold parseCAN07FF
  split_ifs with hlen hid
  · refine ⟨?_, by simp, by simp⟩
    simp only [Bool.false_eq_true, false_iff, not_and]
    intro hge
    omega
  · refine ⟨?_, ?_, by simp⟩
    · simpa using (hfil.mp hid)
    · exact fun _ => ⟨hub 8 7, hub 10 9, hub 12 11, hub 14 13⟩
  · refine ⟨?_, by simp, by simp⟩
    simp only [Bool.false_eq_true, false_iff]
    intro hc
    exact hid (hfil.mpr hc)

/-- C5 witness: a concrete 15-byte telemetry frame with CAN id 0x07FF parses
successfully and yields pic = 0x1234. -/
theorem parseCAN07FF_spec_witness :
    (parseCAN07FF [0, 0, 0, 0xFF, 0x07, 0, 0, 0x12, 0x34, 0, 0, 0, 0, 0, 0]
        ⟨0, 0, 0, 0⟩).1 = true ∧
    (parseCAN07FF [0, 0, 0, 0xFF, 0x07, 0, 0, 0x12, 0x34, 0, 0, 0, 0, 0, 0]
        ⟨0, 0, 0, 0⟩).2.pic = 0x1234 := by
  have hspec := parseCAN07FF_spec
    [0, 0, 0, 0xFF, 0x07, 0, 0, 0x12, 0x34, 0, 0, 0, 0, 0, 0]
    ⟨0, 0, 0, 0⟩ (by decide)
  have h1 : (parseCAN07FF [0, 0, 0, 0xFF, 0x07, 0, 0, 0x12, 0x34, 0, 0, 0, 0, 0, 0]
      ⟨0, 0, 0, 0⟩).1 = true := hspec.1.mpr (by decide)
  refine ⟨h1, ?_⟩
  have h2 := (hspec.2.1 h1).1
  rw [h2]
  decide

/-- C10: `parseUSBCANFrame` validates framing only.  For every input frame it
never writes the four data outputs; it returns true exactly when the frame is
at least 30 bytes with header `0x55 0xAA` and trailer `0x88` (regardless of
the payload at offsets 21-28); on success the only output written is the
canId read little-endian from offsets 13-16, and on failure no output is
written at all. -/
theorem parseUSBCANFrame_frame_effect (frame : List Nat) (o : ParseUSBCANOuts) :
    ((parseUSBCANFrame frame o).2.data1 = o.data1 ∧
     (parseUSBCANFrame frame o).2.data2 = o.data2 ∧
     (parseUSBCANFrame frame o).2.data3 = o.data3 ∧
     (parseUSBCANFrame frame o).2.data4 = o.data4) ∧
    ((parseUSBCANFrame frame o).1 = true ↔
       30 ≤ frame.length ∧ frame.getD 0 0 = 0x55 ∧ frame.getD 1 0 = 0xAA ∧
         frame.getD 29 0 = 0x88) ∧
    ((parseUSBCANFrame frame o).1 = true →
       (parseUSBCANFrame frame o).2.canId =
         frame.getD 13 0 ||| (frame.getD 14 0 <<< 8) |||
           (frame.getD 15 0 <<< 16) ||| (frame.getD 16 0 <<< 24)) ∧
    ((parseUSBCANFrame frame o).1 = false → (parseUSBCANFrame frame o).2 = o) := by
  unfold parseUSBCANFrame
  split_ifs with h1 h2 h3
  · refine ⟨by simp, ?_, by simp, by simp⟩
    simp only [Bool.false_eq_true, false_iff, not_and]
    intro hge
    omega
  · refine ⟨by simp, ?_, by simp, by simp⟩
    simp only [Bool.false_eq_true, false_iff]
    tauto
  · refine ⟨by simp, ?_, by simp, by simp⟩
    simp only [Bool.false_eq_true, false_iff]
    tauto
  · push_neg at h2
    refine ⟨by simp, ?_, by simp, by simp⟩
    simp only [true_iff]
    exact ⟨Nat.le_of_not_lt h1, h2.1, h2.2, of_not_not h3⟩

/-- C10 witness: a concrete well-framed 30-byte frame is accepted, its canId
is recovered, and the data outputs keep their prior values. -/
theorem parseUSBCANFrame_frame_effect_witness :
    (parseUSBCANFrame (buildUSBCANFrame 0x601 11000 20000 0 0)
        ⟨9, 7, 8, 5, 6⟩).2.data1 = 7 ∧
    (parseUSBCANFrame (buildUSBCANFrame 0x601 11000 20000 0 0)
        ⟨9, 7, 8, 5, 6⟩).1 = true := by
  have hspec := parseUSBCANFrame_frame_effect
    (buildUSBCANFrame 0x601 11000 20000 0 0) ⟨9, 7, 8, 5, 6⟩
  exact ⟨hspec.1.1, hspec.2.1.mpr (by decide)⟩

end CANProtocol

namespace GimbalController

/-- State of a `GimbalController` (serial_comm.cpp:323-569) together with an
abstract view of its `SerialComm`: `serialOpen` models `m_serial.isOpen()`
(an OS write on an open port is assumed to succeed), and `sentFrames` is the
ordered trace of byte frames transmitted over the serial link. -/
structure GimbalState where
  initialized : Bool
  running : Bool
  serialOpen : Bool
  picAngle : Int
  yawAngle : Int
  shootStatus : Nat
  idleAngle : Int
  canSetId : Nat
  receiveThreadActive : Bool
  sentFrames : List (List Nat)
deriving Repr, DecidableEq

/-- Constructor defaults (serial_comm.cpp:323-335): pitch 11000, yaw 20000,
shoot 0, idle 0, command CAN id 0x601, nothing initialized or running. -/
def initialGimbalState : GimbalState :=
  { initialized := false
    running := false
    serialOpen := false
    picAngle := 11000
    yawAngle := 20000
    shootStatus := 0
    idleAngle := 0
    canSetId := 0x601
    receiveThreadActive := false
    sentFrames := [] }

/-- Model of `GimbalController::clampAngle` (serial_comm.cpp:557-561). -/
def clampAngle (angle : Int) : Int :=
  if angle < 0 then 0
  else if angle > 30000 then 30000
  else angle

/-- Conversion of a C++ `int` to `uint16_t` (`static_cast<uint16_t>`):
reduction modulo 2^16. -/
def toUInt16 (a : Int) : Nat := (a % 65536).toNat

/-- Model of `GimbalController::sendCommand` (serial_comm.cpp:437-459): fails
without any effect when the controller is not initialized; otherwise builds a
command frame from the current state and transmits it (recorded in
`sentFrames`; the send fails if the port is not open). -/
def sendCommand (s : GimbalState) : Bool × GimbalState :=
  if ¬ s.initialized then (false, s)
  else
    let frame := CANProtocol.buildUSBCANFrame s.canSetId (toUInt16 s.picAngle)
      (toUInt16 s.yawAngle) s.shootStatus (toUInt16 s.idleAngle)
    if s.serialOpen then (true, { s with sentFrames := s.sentFrames ++ [frame] })
    else (false, s)

/-- Model of `GimbalController::setPicAngle` (serial_comm.cpp:413-417). -/
def setPicAngle (s : GimbalState) (angle : Int) : Bool × GimbalState :=
  sendCommand { s with picAngle := clampAngle angle }

/-- Model of `GimbalController::setYawAngle` (serial_comm.cpp:419-423). -/
def setYawAngle (s : GimbalState) (angle : Int) : Bool × GimbalState :=
  sendCommand { s with yawAngle := clampAngle angle }

/-- Model of `GimbalController::setShootStatus` (serial_comm.cpp:425-429):
stores the `uint16_t` argument unchanged (no clamping to {0,1}) and sends. -/
def setShootStatus (s : GimbalState) (status : Nat) : Bool × GimbalState :=
  sendCommand { s with shootStatus := status % 65536 }

/-- Model of `GimbalController::setIdleAngle` (serial_comm.cpp:431-435). -/
def setIdleAngle (s : GimbalState) (angle : Int) : Bool × GimbalState :=
  sendCommand { s with idleAngle := clampAngle angle }

/-- Model of `GimbalController::triggerShoot` (serial_comm.cpp:461-464). -/
def triggerShoot (s : GimbalState) : GimbalState := (setShootStatus s 1).2

/-- Model of `GimbalController::stopShoot` (serial_comm.cpp:466-469). -/
def stopShoot (s : GimbalState) : GimbalState := (setShootStatus s 0).2

/-- Model of `GimbalController::getCurrentPicAngle` (header): reads back
`m_picAngle`. -/
def getCurrentPicAngle (s : GimbalState) : Int := s.picAngle

/-- Model of `GimbalController::getCurrentYawAngle` (header): reads back
`m_yawAngle`. -/
def getCurrentYawAngle (s : GimbalState) : Int := s.yawAngle

/-- Model of `GimbalController::initialize` (serial_comm.cpp:341-390).
`openOk` abstracts whether some candidate serial port opens, `rateOk` whether
the OS write of the rate-configuration frame succeeds.  The source then sets
`m_shootStatus = 0` and calls `sendCommand()` BEFORE `m_initialized` is set,
then starts the receive thread and finally sets `m_initialized = true`.  The
fixed 100 ms settle delay after the rate frame has no further state effect
and is not modelled. -/
def init (s : GimbalState) (openOk rateOk : Bool) : Bool × GimbalState :=
  if s.initialized then (true, s)
  else if ¬ openOk then (false, s)
  else
    let s1 := { s with serialOpen := true }
    if ¬ rateOk then (false, { s1 with serialOpen := false })
    else
      let s2 := { s1 with sentFrames := s1.sentFrames ++ [CANProtocol.buildUSBCANRateFrame 0] }
      let s3 := { s2 with shootStatus := 0 }
      let s4 := (sendCommand s3).2
      let s5 := { s4 with running := true, receiveThreadActive := true }
      (true, { s5 with initialized := true })

/-- Model of `GimbalController::close` (serial_comm.cpp:392-411): stop the
receive thread, force shoot = 0 and send once more, close the port. -/
def close (s : GimbalState) : GimbalState :=
  if ¬ s.initialized then s
  else
    let s1 := { s with running := false, receiveThreadActive := false }
    let s2 := { s1 with shootStatus := 0 }
    let s3 := (sendCommand s2).2
    { s3 with serialOpen := false, initialized := false }

/-- Sending a command frame never changes the stored shoot flag. -/
theorem sendCommand_shootStatus (s : GimbalState) :
    (sendCommand s).2.shootStatus = s.shootStatus := by
  unfold sendCommand
  split_ifs <;> rfl

/-- Sending a command frame never changes the stored pitch angle. -/
theorem sendCommand_picAngle (s : GimbalState) :
    (sendCommand s).2.picAngle = s.picAngle := by
  unfold sendCommand
  split_ifs <;> rfl

/-- Sending a command frame never changes the stored yaw angle. -/
theorem sendCommand_yawAngle (s : GimbalState) :
    (sendCommand s).2.yawAngle = s.yawAngle := by
  unfold sendCommand
  split_ifs <;> rfl

/-- Triggering a shot stores shoot flag 1. -/
theorem triggerShoot_shootStatus (s : GimbalState) :
    (triggerShoot s).shootStatus = 1 := by
  unfold triggerShoot setShootStatus
  rw [sendCommand_shootStatus]

/-- Stopping a shot stores shoot flag 0. -/
theorem stopShoot_shootStatus (s : GimbalState) :
    (stopShoot s).shootStatus = 0 := by
  unfold stopShoot setShootStatus
  rw [sendCommand_shootStatus]

/-- Setting an angle never changes the stored shoot flag. -/
theorem setPicAngle_shootStatus (s : GimbalState) (a : Int) :
    (setPicAngle s a).2.shootStatus = s.shootStatus := by
  unfold setPicAngle
  rw [sendCommand_shootStatus]

/-- Setting the yaw angle never changes the stored shoot flag. -/
theorem setYawAngle_shootStatus (s : GimbalState) (a : Int) :
    (setYawAngle s a).2.shootStatus = s.shootStatus := by
  unfold setYawAngle
  rw [sendCommand_shootStatus]

/-- C2: on a fresh controller whose port opens and whose rate-configuration
send succeeds, `initialize` returns true with the shoot flag stored as 0 and
the receive thread started — but the only frame ever transmitted is the
5-byte rate-configuration frame: the `sendCommand()` call inside `initialize`
runs while `m_initialized` is still false and therefore fails, so no 30-byte
command frame carrying shoot = 0 goes over the serial link. -/
theorem init_sends_no_command_frame :
    (init initialGimbalState true true).1 = true ∧
    (init initialGimbalState true true).2.shootStatus = 0 ∧
    (init initialGimbalState true true).2.receiveThreadActive = true ∧
    (init initialGimbalState true true).2.sentFrames =
      [[0x55, 0x05, 0x00, 0xAA, 0x55]] ∧
    ((init initialGimbalState true true).2.sentFrames.all
      fun f => f.length != 30) = true := by
  decide

/-- The actuator-state invariant from the spec: the stored shoot flag is 0
or 1. -/
def ShootInv (s : GimbalState) : Prop := s.shootStatus = 0 ∨ s.shootStatus = 1

/-- C4 counterexample: `setShootStatus` stores its argument unchanged, so
calling it with status = 2 (a legal `uint16_t` value) leaves the stored shoot
flag at 2, outside {0, 1}. -/
theorem setShootStatus_two_counterexample :
    (setShootStatus { initialGimbalState with
        initialized := true, serialOpen := true } 2).2.shootStatus = 2 ∧
    ¬ ShootInv (setShootStatus { initialGimbalState with
        initialized := true, serialOpen := true } 2).2 := by
  constructor
  · rfl
  · intro h
    rcases h with h | h <;> simp [setShootStatus, sendCommand, initialGimbalState] at h

/-- C4 amended: `setShootStatus` stores its 16-bit argument unchanged, so the
stored flag lands in {0, 1} exactly when the argument is 0 or 1; every other
controller operation preserves the invariant shoot ∈ {0, 1}
(`triggerShoot`/`stopShoot` set it to 1/0, `initialize` and `close` force it
to 0 on their active paths, and the angle setters and `sendCommand` leave it
unchanged).  Since every call site of `setShootStatus` in the repository
passes 0 or 1, the invariant holds in every real run. -/
theorem shoot_flag_invariant_amended :
    (∀ s v, (setShootStatus s v).2.shootStatus = v % 65536) ∧
    (∀ s v, (v = 0 ∨ v = 1) → ShootInv (setShootStatus s v).2) ∧
    (∀ s, (triggerShoot s).shootStatus = 1) ∧
    (∀ s, (stopShoot s).shootStatus = 0) ∧
    (∀ s a, ShootInv s → ShootInv (setPicAngle s a).2) ∧
    (∀ s a, ShootInv s → ShootInv (setYawAngle s a).2) ∧
    (∀ s a, ShootInv s → ShootInv (setIdleAngle s a).2) ∧
    (∀ s, ShootInv s → ShootInv (sendCommand s).2) ∧
    (∀ s openOk rateOk, ShootInv s → ShootInv (init s openOk rateOk).2) ∧
    (∀ s, ShootInv s → ShootInv (close s)) := by
  have hset : ∀ s v, (setShootStatus s v).2.shootStatus = v % 65536 := by
    intro s v
    unfold setShootStatus
    rw [sendCommand_shootStatus]
  refine ⟨hset, ?_, ?_, ?_, ?_, ?_, ?_, ?_, ?_, ?_⟩
  · intro s v hv
    unfold ShootInv
    rw [hset]
    rcases hv with h | h <;> subst h <;> simp
  · intro s
    unfold triggerShoot
    rw [hset]
  · intro s
    unfold stopShoot
    rw [hset]
  · intro s a h
    unfold ShootInv setPicAngle
    rw [sendCommand_shootStatus]
    exact h
  · intro s a h
    unfold ShootInv setYawAngle
    rw [sendCommand_shootStatus]
    exact h
  · intro s a h
    unfold ShootInv setIdleAngle
    rw [sendCommand_shootStatus]
    exact h
  · intro s h
    unfold ShootInv
    rw [sendCommand_shootStatus]
    exact h
  · intro s openOk rateOk h
    unfold init
    split_ifs with h1 h2 h3
    all_goals first
      | exact h
      | · left
          show (sendCommand _).2.shootStatus = 0
          rw [sendCommand_shootStatus]
  · intro s h
    unfold close
    split_ifs with h1
    all_goals first
      | exact h
      | · left
          show (sendCommand _).2.shootStatus = 0
          rw [sendCommand_shootStatus]

/-- C4 witness: the invariant holds of the fresh controller state and is
preserved when the tracking loop sets a pitch angle. -/
theorem shoot_flag_invariant_amended_witness :
    ShootInv initialGimbalState ∧
    ShootInv (setPicAngle initialGimbalState 14000).2 :=
  ⟨Or.inl rfl,
   shoot_flag_invariant_amended.2.2.2.2.1 initialGimbalState 14000 (Or.inl rfl)⟩

/-- C9: the controller clamp equals `max 0 (min 30000 a)` for every `int`
input, and after `setPicAngle a` (resp. `setYawAngle a`) the immediately
read-back commanded angle is exactly the clamped value. -/
theorem clampAngle_spec :
    (∀ a : Int, clampAngle a = max 0 (min 30000 a)) ∧
    (∀ s a, getCurrentPicAngle (setPicAngle s a).2 = clampAngle a) ∧
    (∀ s a, getCurrentYawAngle (setYawAngle s a).2 = clampAngle a) := by
  refine ⟨?_, ?_, ?_⟩
  · intro a
    unfold clampAngle
    simp only [max_def, min_def]
    split_ifs <;> omega
  · intro s a
    unfold getCurrentPicAngle setPicAngle
    rw [sendCommand_picAngle]
  · intro s a
    unfold getCurrentYawAngle setYawAngle
    rw [sendCommand_yawAngle]

end GimbalController

namespace Patrol

/-- Per-iteration state of the patrol loop in `patrolThread`
(main.cpp:95-96): the local `currentAngle` and sweep `direction`
(1 = towards the left limit, -1 = towards the right limit). -/
structure PatrolState where
  currentAngle : Int
  direction : Int
deriving Repr, DecidableEq

/-- Initial patrol state (main.cpp:95-96): `currentAngle = centerAngle
= 15000`, `direction = 1`. -/
def initialPatrolState : PatrolState := ⟨15000, 1⟩

/-- Step size computed by one patrol iteration (main.cpp:108-122):
base speed 50, scaled by `max(0.1, distance/500)` within 500 ticks of the
limit that lies ahead, truncated to `int` and floored at 30.  The C++ double
arithmetic is modelled exactly in ℚ (the operand of the `int` cast is
positive, so the C++ truncation is the floor). -/
def patrolSpeedFor (direction currentAngle : Int) : Int :=
  let distanceToLeft : Int := 28000 - currentAngle
  let distanceToRight : Int := currentAngle - 2000
  if direction > 0 ∧ distanceToLeft < 500 then
    max 30 ⌊(50 : ℚ) * max (1 / 10) ((distanceToLeft : ℚ) / 500)⌋
  else if direction < 0 ∧ distanceToRight < 500 then
    max 30 ⌊(50 : ℚ) * max (1 / 10) ((distanceToRight : ℚ) / 500)⌋
  else 50

/-- One iteration of the patrol sweep (main.cpp:108-140): advance by the
scaled speed in the current direction, then clamp to the limit and reverse
direction when a limit is reached; the resulting `currentAngle` is the yaw
angle commanded via `setYawAngle`. -/
def patrolStep (s : PatrolState) : PatrolState :=
  let a := s.currentAngle + patrolSpeedFor s.direction s.currentAngle * s.direction
  if a ≥ 28000 then ⟨28000, -1⟩
  else if a ≤ 2000 then ⟨2000, 1⟩
  else ⟨a, s.direction⟩

/-- Patrol loop invariant: the angle lies between the sweep limits and the
direction is one of the two sweep directions. -/
def PatrolInv (s : PatrolState) : Prop :=
  2000 ≤ s.currentAngle ∧ s.currentAngle ≤ 28000 ∧
    (s.direction = 1 ∨ s.direction = -1)

/-- The deceleration-zone speed is at most 50 whenever the remaining
distance is below 500. -/
theorem floor_term_le (x : Int) (hx : x < 500) :
    max 30 ⌊(50 : ℚ) * max (1 / 10) ((x : ℚ) / 500)⌋ ≤ 50 := by
  have hm : max (1 / 10 : ℚ) ((x : ℚ) / 500) < 1 := by
    apply max_lt
    · norm_num
    · rw [div_lt_one (by norm_num : (0:ℚ) < 500)]
      exact_mod_cast hx
  have h50 : (50 : ℚ) * max (1 / 10) ((x : ℚ) / 500) < 50 := by
    calc (50 : ℚ) * max (1 / 10) ((x : ℚ) / 500) < 50 * 1 :=
          mul_lt_mul_of_pos_left hm (by norm_num)
      _ = 50 := by norm_num
  have hfl : ⌊(50 : ℚ) * max (1 / 10) ((x : ℚ) / 500)⌋ < 50 := by
    rw [Int.floor_lt]
    exact_mod_cast h50
  omega

/-- Every patrol step size lies in [30, 50]. -/
theorem patrolSpeedFor_bounds (d a : Int) :
    30 ≤ patrolSpeedFor d a ∧ patrolSpeedFor d a ≤ 50 := by
  unfold patrolSpeedFor
  dsimp only
  split_ifs with h1 h2
  · exact ⟨le_max_left _ _, floor_term_le _ h1.2⟩
  · exact ⟨le_max_left _ _, floor_term_le _ h2.2⟩
  · exact ⟨by norm_num, le_refl _⟩

/-- One patrol step preserves the invariant. -/
theorem patrol_inv_step (s : PatrolState) (h : PatrolInv s) :
    PatrolInv (patrolStep s) := by
  obtain ⟨h1, h2, hdir⟩ := h
  have hv := patrolSpeedFor_bounds s.direction s.currentAngle
  unfold patrolStep
  dsimp only
  split_ifs with ha hb
  · exact ⟨by norm_num, by norm_num, Or.inr rfl⟩
  · exact ⟨by norm_num, by norm_num, Or.inl rfl⟩
  · have hx : 2000 ≤ s.currentAngle + patrolSpeedFor s.direction s.currentAngle * s.direction ∧
        s.currentAngle + patrolSpeedFor s.direction s.currentAngle * s.direction ≤ 28000 := by
      constructor <;> omega
    exact ⟨hx.1, hx.2, hdir⟩

/-- One patrol step changes the angle by at most 50 ticks. -/
theorem patrol_step_size (s : PatrolState) (h : PatrolInv s) :
    ((patrolStep s).currentAngle - s.currentAngle).natAbs ≤ 50 := by
  obtain ⟨h1, h2, hdir⟩ := h
  have hv := patrolSpeedFor_bounds s.direction s.currentAngle
  unfold patrolStep
  dsimp only
  rcases hdir with hd | hd <;>
    rw [hd] <;> rw [hd] at hv <;>
    split_ifs with ha hb <;>
    dsimp only <;>
    simp only [mul_one, mul_neg_one] at * <;>
    omega

/-- While sweeping left, the direction flips exactly when the commanded
angle reaches the left limit 28000. -/
theorem patrol_reverse_left (s : PatrolState) (h : PatrolInv s)
    (hd : s.direction = 1) :
    (patrolStep s).direction = -1 ↔ (patrolStep s).currentAngle = 28000 := by
  obtain ⟨h1, h2, _⟩ := h
  have hv := patrolSpeedFor_bounds s.direction s.currentAngle
  unfold patrolStep
  dsimp only
  rw [hd] at hv ⊢
  split_ifs with ha hb
  · simp
  · omega
  · constructor
    · intro hc
      simp at hc
    · intro hc
      simp only [mul_one] at hc ha
      omega

/-- While sweeping right, the direction flips exactly when the commanded
angle reaches the right limit 2000. -/
theorem patrol_reverse_right (s : PatrolState) (h : PatrolInv s)
    (hd : s.direction = -1) :
    (patrolStep s).direction = 1 ↔ (patrolStep s).currentAngle = 2000 := by
  obtain ⟨h1, h2, _⟩ := h
  have hv := patrolSpeedFor_bounds s.direction s.currentAngle
  unfold patrolStep
  dsimp only
  rw [hd] at hv ⊢
  split_ifs with ha hb
  · simp only [mul_neg_one] at ha
    omega
  · simp
  · constructor
    · intro hc
      simp at hc
    · intro hc
      simp only [mul_neg_one] at hc hb
      omega

/-- C8: starting from center 15000 sweeping left, every yaw angle the patrol
loop commands lies within [2000, 28000] (so the later `setYawAngle` clamp is
the identity on it), each tick moves the angle by at most 50 ticks, and the
sweep direction switches to decreasing exactly when the commanded angle
reaches the left limit 28000 and to increasing exactly when it reaches the
right limit 2000 — the commanded angle never overshoots either bound. -/
theorem patrol_bounds_spec :
    (∀ s, PatrolInv s → PatrolInv (patrolStep s)) ∧
    (∀ s, PatrolInv s →
       2000 ≤ (patrolStep s).currentAngle ∧ (patrolStep s).currentAngle ≤ 28000 ∧
         GimbalController.clampAngle (patrolStep s).currentAngle =
           (patrolStep s).currentAngle) ∧
    (∀ s, PatrolInv s → ((patrolStep s).currentAngle - s.currentAngle).natAbs ≤ 50) ∧
    (∀ s, PatrolInv s → s.direction = 1 →
       ((patrolStep s).direction = -1 ↔ (patrolStep s).currentAngle = 28000)) ∧
    (∀ s, PatrolInv s → s.direction = -1 →
       ((patrolStep s).direction = 1 ↔ (patrolStep s).currentAngle = 2000)) ∧
    (∀ n : Nat, PatrolInv (patrolStep^[n] initialPatrolState)) := by
  have hiter : ∀ n : Nat, PatrolInv (patrolStep^[n] initialPatrolState) := by
    intro n
    induction n with
    | zero => exact ⟨by norm_num [initialPatrolState], by norm_num [initialPatrolState],
        Or.inl rfl⟩
    | succ k ih =>
        rw [Function.iterate_succ_apply']
        exact patrol_inv_step _ ih
  refine ⟨patrol_inv_step, ?_, patrol_step_size, patrol_reverse_left,
    patrol_reverse_right, hiter⟩
  intro s h
  obtain ⟨hb1, hb2, _⟩ := patrol_inv_step s h
  refine ⟨hb1, hb2, ?_⟩
  unfold GimbalController.clampAngle
  split_ifs <;> omega

/-- C8 witness: the invariant holds at the initial patrol state, and after
one step from it the commanded yaw stays within the sweep limits. -/
theorem patrol_bounds_spec_witness :
    PatrolInv initialPatrolState ∧
    2000 ≤ (patrolStep initialPatrolState).currentAngle ∧
    (patrolStep initialPatrolState).currentAngle ≤ 28000 := by
  have hinv : PatrolInv initialPatrolState := ⟨by decide, by decide, Or.inl rfl⟩
  exact ⟨hinv, (patrol_bounds_spec.2.1 initialPatrolState hinv).1,
    (patrol_bounds_spec.2.1 initialPatrolState hinv).2.1⟩

end Patrol

namespace Tracking

/-- One detection candidate delivered by the detector (struct `Detection` in
the detector header): pixel bounds, confidence and class label.  The C++
`float` confidence is modelled in ℚ; the tracking loop only compares
confidences, and for the representable, NaN-free values produced by the
detector the `float` order agrees with the rational order. -/
structure Detection where
  x1 : Int
  y1 : Int
  x2 : Int
  y2 : Int
  confidence : ℚ
  classId : Int
  className : String
deriving Repr, DecidableEq

/-- The static class-label → pitch-angle lookup table `ELEVATION_MAPPING`
(main.cpp:35-49), queried with `std::map::find`. -/
def ELEVATION_MAPPING : String → Option Int := fun name =>
  match name with
  | "blue100" => some 6000
  | "blue200" => some 8500
  | "blue300" => some 9500
  | "blue400" => some 10000
  | "blue500" => some 14500
  | "red100" => some 8000
  | "red200" => some 10000
  | "red300" => some 14000
  | "red400" => some 18000
  | "red500" => some 20000
  | _ => none

/-- First class id of the selected color band (main.cpp:314). -/
def targetStartId (targetType : String) : Int :=
  if targetType = "red" then 5 else 0

/-- Last class id of the selected color band (main.cpp:315). -/
def targetEndId (targetType : String) : Int :=
  if targetType = "red" then 9 else 4

/-- The `copy_if` predicate filtering candidates to the selected color band
(main.cpp:340-344). -/
def qualifies (targetType : String) (d : Detection) : Bool :=
  decide (targetStartId targetType ≤ d.classId ∧ d.classId ≤ targetEndId targetType)

/-- Model of `std::max_element` with the strict confidence comparator
(main.cpp:360-364): keeps the current best and replaces it only on a strictly
larger confidence, so ties resolve to the earliest candidate. -/
def maxByConfidence (best : Detection) (rest : List Detection) : Detection :=
  rest.foldl (fun acc x => if acc.confidence < x.confidence then x else acc) best

/-- Horizontal deviation of a candidate's center from the image center
(main.cpp:367-369); the C++ `int` division truncates toward zero. -/
def deviationOf (d : Detection) (imageCenterX : Int) : Int :=
  Int.tdiv (d.x1 + d.x2) 2 - imageCenterX

/-- The ±100-pixel hysteresis test `centerStable` (main.cpp:372). -/
def isCentered (d : Detection) (imageCenterX : Int) : Bool :=
  decide ((deviationOf d imageCenterX).natAbs ≤ 100)

/-- The `statusText` values assigned by the detection loop
(main.cpp:307,441,515,519,521,527). -/
inductive StatusText
  | patrolling
  | targetLost
  | confirmingLoss
  | centered
  | adjusting
deriving Repr, DecidableEq

/-- One frame of input to the tracking loop: the `steady_clock` timestamp in
milliseconds, the image center (`frame.cols / 2`, main.cpp:270) and the
detector's candidate list. -/
structure FrameInput where
  t : Nat
  imageCenterX : Int
  detections : List Detection
deriving Repr, DecidableEq

/-- State carried across iterations of `detectionThread`: the globals
`g_targetLock`, `g_shooting`, `g_currentYawAngle`, the local timestamps
`targetLostTime`, `lockStartTime`, `lastPulseSwitch` (main.cpp:173-181), and
the gimbal controller the loop drives. -/
structure DetectionState where
  targetLock : Bool
  shooting : Bool
  targetLostTime : Nat
  lockStartTime : Nat
  lastPulseSwitch : Nat
  currentYawAngle : Int
  gimbal : GimbalController.GimbalState
deriving Repr, DecidableEq

/-- State at thread start time `t0` (main.cpp:22-29,173-181): no lock, not
shooting, all timestamps at `t0`, yaw at center 15000. -/
def initialDetectionState (t0 : Nat) (g : GimbalController.GimbalState) :
    DetectionState :=
  ⟨false, false, t0, t0, t0, 15000, g⟩

/-- One iteration of the tracking loop's control logic (main.cpp:310-529),
omitting drawing, logging and FPS bookkeeping, which touch no control state.
Durations are in integer milliseconds; the source's double thresholds
`shootingDelay = 0.0`, `shootPulseOff = 0.2`, `shootPulseOn = 0.4` and
`targetLostTimeout = 1.0` (seconds) become `≥ 0`, `≥ 200`, `≥ 400` and
`> 1000` on milliseconds, which is exact for these values. -/
def detectionStep (targetType : String) (s : DetectionState) (f : FrameInput) :
    DetectionState × StatusText :=
  let targetDetections := f.detections.filter (qualifies targetType)
  match targetDetections with
  | [] =>
    let g1 := GimbalController.stopShoot s.gimbal
    if s.targetLock then
      let elapsedSinceLostMs := f.t - s.targetLostTime
      if elapsedSinceLostMs = 0 then
        ({ s with shooting := false, gimbal := g1, targetLostTime := f.t },
         StatusText.targetLost)
      else if elapsedSinceLostMs > 1000 then
        ({ s with shooting := false, gimbal := g1, targetLock := false, lockStartTime := f.t },
         StatusText.patrolling)
      else
        ({ s with shooting := false, gimbal := g1 }, StatusText.confirmingLoss)
    else
      ({ s with shooting := false, gimbal := g1, targetLostTime := f.t },
       StatusText.patrolling)
  | d :: ds =>
    let bestDet := maxByConfidence d ds
    let xDeviation := deviationOf bestDet f.imageCenterX
    let centerStable := isCentered bestDet f.imageCenterX
    let lockStart := if ¬ s.targetLock then f.t else s.lockStartTime
    let shooting0 := if ¬ s.targetLock then false else s.shooting
    let g1 :=
      match ELEVATION_MAPPING bestDet.className with
      | some pitch =>
          (GimbalController.sendCommand (GimbalController.setPicAngle s.gimbal pitch).2).2
      | none => s.gimbal
    let yawPair :=
      if ¬ centerStable then
        let newAngle := max 0 (min 30000
          (s.currentYawAngle + (if xDeviation > 0 then -25 else 25)))
        ((GimbalController.setYawAngle g1 newAngle).2, newAngle)
      else (g1, s.currentYawAngle)
    let status := if centerStable then StatusText.centered else StatusText.adjusting
    if centerStable ∧ f.t - lockStart ≥ 0 then
      let elapsedSincePulseMs := f.t - s.lastPulseSwitch
      if ¬ shooting0 ∧ elapsedSincePulseMs ≥ 200 then
        ({ targetLock := true, shooting := true, targetLostTime := s.targetLostTime,
           lockStartTime := lockStart, lastPulseSwitch := f.t,
           currentYawAngle := yawPair.2,
           gimbal := GimbalController.triggerShoot yawPair.1 }, status)
      else if shooting0 ∧ elapsedSincePulseMs ≥ 400 then
        ({ targetLock := true, shooting := false, targetLostTime := s.targetLostTime,
           lockStartTime := lockStart, lastPulseSwitch := f.t,
           currentYawAngle := yawPair.2,
           gimbal := GimbalController.stopShoot yawPair.1 }, status)
      else
        ({ targetLock := true, shooting := shooting0, targetLostTime := s.targetLostTime,
           lockStartTime := lockStart, lastPulseSwitch := s.lastPulseSwitch,
           currentYawAngle := yawPair.2, gimbal := yawPair.1 }, status)
    else
      ({ targetLock := true, shooting := false, targetLostTime := s.targetLostTime,
         lockStartTime := lockStart, lastPulseSwitch := s.lastPulseSwitch,
         currentYawAngle := yawPair.2,
         gimbal := GimbalController.stopShoot yawPair.1 }, status)

/-- Fold of `detectionStep` over a list of frames, collecting each frame's
status text. -/
def runDetection (targetType : String) (s : DetectionState)
    (frames : List FrameInput) : DetectionState × List StatusText :=
  frames.foldl
    (fun acc f =>
      let r := detectionStep targetType acc.1 f
      (r.1, acc.2 ++ [r.2]))
    (s, [])

/-- Fold of `detectionStep` over a list of frames, collecting the state after
each frame. -/
def detectionTrace (targetType : String) (s : DetectionState)
    (frames : List FrameInput) : List DetectionState :=
  (frames.foldl
    (fun acc f =>
      let n := (detectionStep targetType acc.1 f).1
      (n, acc.2 ++ [n]))
    (s, [])).2

/-- A sample qualifying red candidate whose bounding box is centered on an
image whose horizontal center is pixel 100. -/
def redDet : Detection := ⟨100, 0, 100, 0, 9 / 10, 5, "red100"⟩

/-- A gimbal controller state as it is after a successful `initialize`. -/
def readyGimbal : GimbalController.GimbalState :=
  { GimbalController.initialGimbalState with initialized := true, serialOpen := true }

/-- C1 (evaluation of the code at the failing input): frames at t = 0 ms (no
candidates), t = 16 ms (a qualifying candidate, which locks), and t = 1200 ms
(no candidates — the FIRST empty frame after the lock, i.e. 0 s of continuous
absence).  Because `targetLostTime` is never refreshed while candidates are
present, the stale timer makes `elapsedSinceLost` = 1.2 s > 1.0 s on that
first empty frame, so the loop releases the lock and reports `Patrolling`
immediately instead of holding the lock in `ConfirmingLoss` for up to 1 s of
continuous absence. -/
theorem loss_debounce_code_bug :
    (runDetection ("red") (initialDetectionState 0 readyGimbal)
        [⟨0, 100, []⟩, ⟨16, 100, [redDet]⟩, ⟨1200, 100, []⟩]).2 =
      [StatusText.patrolling, StatusText.centered, StatusText.patrolling] ∧
    (runDetection ("red") (initialDetectionState 0 readyGimbal)
        [⟨0, 100, []⟩, ⟨16, 100, [redDet]⟩, ⟨1200, 100, []⟩]).1.targetLock = false := by
  decide

/-- C7: while a locked target is centered (|deviation| ≤ 100 px of the frame
center), the loop drives the fixed-duty fire pulse: fire turns on when it is
off and at least 0.2 s (200 ms) have passed since the last pulse edge; it
turns off when it is on and at least 0.4 s (400 ms) have passed since the
last pulse edge; between thresholds the fire signal and the edge timestamp
hold; whenever the tracked target is not centered, firing is forced off.
Under a continuous centered lock (frames every 200 ms, last pulse edge far in
the past) the fire signal is on at relative time 0.0 s, still on at 0.2 s,
off at 0.4 s and on again at 0.6 s. -/
theorem fire_pulse_spec :
    (∀ tt s f d ds, f.detections.filter (qualifies tt) = d :: ds →
       isCentered (maxByConfidence d ds) f.imageCenterX = true →
       s.targetLock = true → s.shooting = false →
       200 ≤ f.t - s.lastPulseSwitch →
       (detectionStep tt s f).1.shooting = true ∧
       (detectionStep tt s f).1.lastPulseSwitch = f.t ∧
       (detectionStep tt s f).1.gimbal.shootStatus = 1) ∧
    (∀ tt s f d ds, f.detections.filter (qualifies tt) = d :: ds →
       isCentered (maxByConfidence d ds) f.imageCenterX = true →
       s.targetLock = true → s.shooting = true →
       400 ≤ f.t - s.lastPulseSwitch →
       (detectionStep tt s f).1.shooting = false ∧
       (detectionStep tt s f).1.lastPulseSwitch = f.t ∧
       (detectionStep tt s f).1.gimbal.shootStatus = 0) ∧
    (∀ tt s f d ds, f.detections.filter (qualifies tt) = d :: ds →
       isCentered (maxByConfidence d ds) f.imageCenterX = true →
       s.targetLock = true → s.shooting = true →
       f.t - s.lastPulseSwitch < 400 →
       (detectionStep tt s f).1.shooting = true ∧
       (detectionStep tt s f).1.lastPulseSwitch = s.lastPulseSwitch) ∧
    (∀ tt s f d ds, f.detections.filter (qualifies tt) = d :: ds →
       isCentered (maxByConfidence d ds) f.imageCenterX = true →
       s.targetLock = true → s.shooting = false →
       f.t - s.lastPulseSwitch < 200 →
       (detectionStep tt s f).1.shooting = false ∧
       (detectionStep tt s f).1.lastPulseSwitch = s.lastPulseSwitch) ∧
    (∀ tt s f d ds, f.detections.filter (qualifies tt) = d :: ds →
       isCentered (maxByConfidence d ds) f.imageCenterX = false →
       (detectionStep tt s f).1.shooting = false ∧
       (detectionStep tt s f).1.gimbal.shootStatus = 0) ∧
    ((detectionTrace ("red") (initialDetectionState 0 readyGimbal)
        [⟨1000, 100, [redDet]⟩, ⟨1200, 100, [redDet]⟩, ⟨1400, 100, [redDet]⟩,
         ⟨1600, 100, [redDet]⟩]).map (fun st => st.shooting) =
      [true, true, false, true]) := by
  refine ⟨?_, ?_, ?_, ?_, ?_, by decide⟩
  · intro tt s f d ds hf hc hl hs hp
    unfold detectionStep
    rw [hf]
    dsimp only
    simp [hl, hs, hc, hp, GimbalController.triggerShoot_shootStatus]
  · intro tt s f d ds hf hc hl hs hp
    unfold detectionStep
    rw [hf]
    dsimp only
    simp [hl, hs, hc, hp, GimbalController.stopShoot_shootStatus]
  · intro tt s f d ds hf hc hl hs hp
    unfold detectionStep
    rw [hf]
    dsimp only
    simp [hl, hs, hc, Nat.not_le.mpr hp]
  · intro tt s f d ds hf hc hl hs hp
    unfold detectionStep
    rw [hf]
    dsimp only
    simp [hl, hs, hc, Nat.not_le.mpr hp]
  · intro tt s f d ds hf hc
    unfold detectionStep
    rw [hf]
    dsimp only
    simp [hc, GimbalController.stopShoot_shootStatus]

/-- C7 witness: with a locked, centered red target and the last pulse edge
1000 ms in the past, the step turns the fire signal on. -/
theorem fire_pulse_spec_witness :
    isCentered (maxByConfidence redDet []) 100 = true ∧
    (detectionStep ("red")
        { initialDetectionState 0 readyGimbal with targetLock := true }
        ⟨1000, 100, [redDet]⟩).1.shooting = true :=
  ⟨rfl,
   (fire_pulse_spec.1 ("red")
      { initialDetectionState 0 readyGimbal with targetLock := true }
      ⟨1000, 100, [redDet]⟩ redDet [] rfl rfl rfl rfl (by decide)).1⟩

end Tracking

end RmAutoAttack
